import Mathlib

/-!
Verification of the lifegraph annotation-layout core.

This file gives a shallow embedding, in Lean 4, of the parts of the
lifegraph repository that the checked claims are about:

* the calendar model used by `Lifegraph.__validate_date` and
  `Lifegraph.__to_date_position` (src/lifegraph/lifegraph.py), including
  Python `datetime.date` subtraction/comparison and
  `dateutil.relativedelta(years=n)`;
* the geometry of `core.Annotation` (bounding boxes, `overlaps`,
  `is_within_epsilon_of`, `get_xy_correction`, `update_Y_with_correction`,
  src/lifegraph/core.py);
* the label placement and conflict resolver
  `Lifegraph.__resolve_annotation_conflicts`, the visibility filter
  `Lifegraph.__is_annotation_visible`, the hint sanitizer
  `Lifegraph.__sanitize_hint` and the label-point chooser
  `Lifegraph.__get_label_point`;
* the registration entry points `add_life_event`, `add_era`,
  `add_era_span` as state transformers, and the event-record
  export/import path of src/lifegraph/serialization.py.

Numbers are modelled with `ℚ` (Python floats never overflow in the
magnitudes used here and all constants in the code are exactly
representable); Python ints with `Int`.  Python `//` and `%` (floor
division, sign of the divisor) are `Int.fdiv` and `Int.fmod`.
-/

namespace Lifegraph

/-! ## Calendar model

Python's `datetime.date` is a proleptic-Gregorian (year, month, day)
triple; subtraction yields day counts via ordinals, comparison is
field-lexicographic.  `dateutil.relativedelta(years=n)` adds `n` to the
year and clamps the day to the length of the target month (Feb 29 + 1
year = Feb 28). -/

structure PyDate where
  year : Int
  month : Int
  day : Int
deriving DecidableEq

/-- Gregorian leap-year rule, as implemented by `datetime`. -/
def isLeap (y : Int) : Bool :=
  (Int.emod y 4 == 0 && Int.emod y 100 != 0) || Int.emod y 400 == 0

def daysInMonth (y : Int) (m : Int) : Int :=
  if m = 1 then 31
  else if m = 2 then (if isLeap y then 29 else 28)
  else if m = 3 then 31
  else if m = 4 then 30
  else if m = 5 then 31
  else if m = 6 then 30
  else if m = 7 then 31
  else if m = 8 then 31
  else if m = 9 then 30
  else if m = 10 then 31
  else if m = 11 then 30
  else 31

/-- Days in the months of year `y` strictly before month `m` (for
`1 ≤ m ≤ 12`); cumulative table used by `date.toordinal`. -/
def daysBeforeMonth (y : Int) (m : Int) : Int :=
  let leapAdd : Int := if isLeap y then 1 else 0
  if m ≤ 1 then 0
  else if m = 2 then 31
  else if m = 3 then 59 + leapAdd
  else if m = 4 then 90 + leapAdd
  else if m = 5 then 120 + leapAdd
  else if m = 6 then 151 + leapAdd
  else if m = 7 then 181 + leapAdd
  else if m = 8 then 212 + leapAdd
  else if m = 9 then 243 + leapAdd
  else if m = 10 then 273 + leapAdd
  else if m = 11 then 304 + leapAdd
  else 334 + leapAdd

/-- Days in all years strictly before year `y` (proleptic Gregorian,
day 1 of year 1 has ordinal 1, exactly `datetime.date.toordinal`). -/
def daysBeforeYear (y : Int) : Int :=
  365 * (y - 1) + Int.fdiv (y - 1) 4 - Int.fdiv (y - 1) 100 + Int.fdiv (y - 1) 400

/-- `datetime.date.toordinal`: the day number of the date.  Differences
of ordinals are what Python's `date - date` (`timedelta.days`) returns. -/
def toOrdinal (d : PyDate) : Int :=
  daysBeforeYear d.year + daysBeforeMonth d.year d.month + d.day

/-- Python `date < date`: lexicographic on (year, month, day). -/
def pyDateLt (a b : PyDate) : Bool :=
  a.year < b.year
    || (a.year == b.year
        && (a.month < b.month || (a.month == b.month && a.day < b.day)))

/-- `date + relativedelta(years = n)`: add to the year, clamp the day to
the length of the resulting month. -/
def addYears (d : PyDate) (n : Int) : PyDate :=
  { year := d.year + n, month := d.month,
    day := min d.day (daysInMonth (d.year + n) d.month) }

/-- `date - timedelta(days=1)`. -/
def prevDay (d : PyDate) : PyDate :=
  if 1 < d.day then { d with day := d.day - 1 }
  else if 1 < d.month then
    { d with month := d.month - 1, day := daysInMonth d.year (d.month - 1) }
  else { year := d.year - 1, month := 12, day := 31 }

/-- A structurally valid Gregorian date (what `datetime.date` can hold). -/
def PyDate.Valid (d : PyDate) : Prop :=
  1 ≤ d.month ∧ d.month ≤ 12 ∧ 1 ≤ d.day ∧ d.day ≤ daysInMonth d.year d.month

instance (d : PyDate) : Decidable d.Valid := by
  unfold PyDate.Valid; infer_instance

/-- `Lifegraph.__validate_date` (lifegraph.py:852-857): returns `true`
when the call raises, i.e. when `date < birthdate` or
`date > birthdate + relativedelta(years=self.ymax)` (`self.ymax` is the
`max_age` constructor argument). -/
def validateDateRaises (birthdate : PyDate) (ymaxYears : Int) (date : PyDate) : Bool :=
  pyDateLt date birthdate || pyDateLt (addYears birthdate ymaxYears) date

/-- `core.DatePosition` restricted to the fields the claims use:
week column `x` and year row `y` plus the originating date. -/
structure DatePosition where
  x : Int
  y : Int
  date : PyDate
deriving DecidableEq

/-- `Lifegraph.__to_date_position` (lifegraph.py:859-878).  Note the row
is `delta.days // 365` on the raw day difference; `self.xmax` is 52. -/
def toDatePosition (birthdate : PyDate) (date : PyDate) : DatePosition :=
  let deltaDays := toOrdinal date - toOrdinal birthdate
  let year := Int.fdiv deltaDays 365
  let startOfYear := addYears birthdate year
  let diff := toOrdinal date - toOrdinal startOfYear
  let week := Int.fdiv diff 7
  let x := Int.fmod week 52 + 1
  { x := x, y := year, date := date }

/-- Modelled from the spec: "compute whole elapsed years between birth
date and target date using calendar-aware year arithmetic (a 'years
elapsed' count such that the anniversary of the birth date always starts
a new row)".  The count is `n` when the `n`-th anniversary
(`birthdate + relativedelta(years=n)`) has been reached but the
`(n+1)`-st has not. -/
def calendarYearsElapsed (birthdate : PyDate) (date : PyDate) : Int :=
  let n := date.year - birthdate.year
  if pyDateLt date (addYears birthdate n) then n - 1 else n

/-! ## Geometry and the annotation model

`core.Annotation` as its callers in lifegraph.py construct and use it.
`matplotlib.transforms.Bbox` is the record of its four coordinates.
The text of a label only enters the layout through its measured size, so
the annotation carries the measured width/height (`textW`, `textH`) that
the backend's `measure` returns for it; `__set_annotation_bbox` draws the
text centered at `(x, y)` (`ha='center', va='center'`), so the measured
box is the `textW × textH` rectangle centered there.

Note: `core.Annotation.__init__` (core.py:138-147) does not actually
accept the `source_y_range` keyword that all three registration call
sites pass; the structure below models the object those call sites (and
`__is_annotation_visible`) intend.  The keyword mismatch itself is
modelled in the call-binding section further down. -/

structure Bbox where
  x0 : ℚ
  y0 : ℚ
  x1 : ℚ
  y1 : ℚ
deriving DecidableEq

structure Annotation where
  x : ℚ
  y : ℚ
  textW : ℚ
  textH : ℚ
  bbox : Bbox
  eventX : ℚ
  eventY : ℚ
  relpos : ℚ × ℚ
  sourceY : Option (ℚ × ℚ)
deriving DecidableEq

/-- `Annotation.overlaps` (core.py:168-195): boxes do not overlap when
one is entirely to the right of, or entirely below, the other. -/
def Annotation.overlaps (self that : Annotation ) : Bool :=
  if self.bbox.x0 ≥ that.bbox.x1 ∨ that.bbox.x0 ≥ self.bbox.x1 then false
  else if self.bbox.y0 ≥ that.bbox.y1 ∨ that.bbox.y0 ≥ self.bbox.y1 then false
  else true

/-- `Annotation.is_within_epsilon_of` (core.py:196-222). -/
def Annotation.isWithinEpsilonOf (self that : Annotation ) (epsilon : ℚ) : Bool :=
  if self.bbox.x0 - epsilon > that.bbox.x1 ∨ that.bbox.x0 - epsilon > self.bbox.x1 then false
  else if self.bbox.y0 - epsilon > that.bbox.y1 ∨ that.bbox.y0 - epsilon > self.bbox.y1 then false
  else true

/-- `Annotation.get_xy_correction` (core.py:249-273). -/
def Annotation.getXYCorrection (self that : Annotation ) (epsilon : ℚ) : ℚ × ℚ :=
  (|that.bbox.x1 - self.bbox.x0| + epsilon, |that.bbox.y1 - self.bbox.y0| + epsilon)

/-- `Annotation.update_Y_with_correction` (core.py:285-295): adds
`correction[1]` to the label position y and to both box ordinates. -/
def Annotation.updateYWithCorrection (self : Annotation ) (correction : ℚ × ℚ) : Annotation :=
  { self with y := self.y + correction.2,
              bbox := { self.bbox with y0 := self.bbox.y0 + correction.2,
                                       y1 := self.bbox.y1 + correction.2 } }

/-- Translate a label and its box down by `d` in lockstep. -/
def shiftY (d : ℚ) (a : Annotation ) : Annotation :=
  { a with y := a.y + d,
           bbox := { a.bbox with y0 := a.bbox.y0 + d, y1 := a.bbox.y1 + d } }

/-! ## Graph parameters

`self.xmin = -0.5` and `self.xmax = 52` are fixed in the constructor;
`min_age`/`max_age` (stored as `self.ymax`), the two annotation offsets
from `LifegraphParams.otherParams` and `label_space_epsilon` vary. -/

def xminC : ℚ := -(1/2)

def xmaxC : ℚ := 52

structure GraphParams where
  minAge : ℚ
  ymax : ℚ
  leftOffset : ℚ
  rightOffset : ℚ
  epsilon : ℚ
deriving DecidableEq

/-- `Lifegraph.__set_annotation_bbox` (lifegraph.py:898-916): the backend
measures the label text drawn centered at `(x, y)` and the box is stored
in data units. -/
def setAnnotationBbox (a : Annotation ) : Annotation :=
  { a with bbox := { x0 := a.x - a.textW / 2, y0 := a.y - a.textH / 2,
                     x1 := a.x + a.textW / 2, y1 := a.y + a.textH / 2 } }

/-- The per-annotation initial-placement step of
`Lifegraph.__resolve_annotation_conflicts` (lifegraph.py:790-819):
measure the box, snap the x position to a side offset when the label's y
is within `[min_age, ymax]`, left-align the box at the new x, and set
`relpos`; labels above/below the visible range keep their measured box
and get `relpos` `(0.5, 0)` / `(0.5, 1)`. -/
def placeStep (p : GraphParams) (a0 : Annotation ) : Annotation :=
  let a := setAnnotationBbox a0
  let width := a.bbox.x1 - a.bbox.x0
  if p.minAge ≤ a.y ∧ a.y ≤ p.ymax then
    let x' :=
      if (xmaxC / 2 ≤ a.x ∧ a.x < xmaxC) ∨ (xmaxC ≤ a.x ∧ a.x < xmaxC + p.rightOffset) then
        xmaxC + p.rightOffset
      else if (0 ≤ a.x ∧ a.x < xmaxC / 2) ∨ (a.x ≤ xminC ∧ xminC - p.leftOffset < a.x) then
        xminC - p.leftOffset - width
      else a.x
    let a' := { a with x := x', bbox := { a.bbox with x0 := x', x1 := x' + width } }
    if xmaxC / 2 ≤ a'.x then { a' with relpos := (0, 1/2) }
    else { a' with relpos := (1, 1/2) }
  else if a.y < p.minAge then { a with relpos := (1/2, 0) }
  else { a with relpos := (1/2, 1) }

/-- Whether the loop in `__resolve_annotation_conflicts` appends the
(placed) annotation to the `left` list: its y must be in the visible
range and its post-snap x left of the grid midline. -/
def goesLeft (p : GraphParams) (a : Annotation ) : Bool :=
  decide (p.minAge ≤ a.y ∧ a.y ≤ p.ymax) && decide ((placeStep p a).x < xmaxC / 2)

/-- The first loop of `__resolve_annotation_conflicts`: place every
annotation and partition into the `left` and `right` lists, in input
order. -/
def assignSides (p : GraphParams) (l : List Annotation ) : List Annotation × List Annotation :=
  (l.filterMap (fun a => if goesLeft p a then some (placeStep p a) else none),
   l.filterMap (fun a => if goesLeft p a then none else some (placeStep p a)))

/-- Lexicographic strict comparison of sort keys. -/
def lexLt (a b : ℚ × ℚ) : Bool :=
  a.1 < b.1 || (a.1 == b.1 && a.2 < b.2)

/-- Sort key order for the left partition:
`key = (event_point.y, event_point.x)` ascending. -/
def ltLeft (a b : Annotation ) : Bool :=
  lexLt (a.eventY, a.eventX) (b.eventY, b.eventX)

/-- Sort key order for the right partition:
`key = (event_point.y, -event_point.x)` ascending. -/
def ltRight (a b : Annotation ) : Bool :=
  lexLt (a.eventY, -a.eventX) (b.eventY, -b.eventX)

/-- Stable insertion: a later-arriving element goes after all
equal-or-smaller keys, before strictly larger ones — inserting the head
of the original list in front of equal keys models Python's stable
`list.sort`. -/
def insertSorted (lt : Annotation → Annotation → Bool) (a : Annotation ) :
    List Annotation → List Annotation
  | [] => [a]
  | b :: rest => if lt b a then b :: insertSorted lt a rest else a :: b :: rest

def sortStable (lt : Annotation → Annotation → Bool) : List Annotation → List Annotation
  | [] => []
  | a :: rest => insertSorted lt a (sortStable lt rest)

/-- One comparison of the greedy separation loop (lifegraph.py:831-839):
if the candidate overlaps the placed label, push it down by the
`get_xy_correction` amount; then, if it is (still) within epsilon of the
placed label, push it down by a flat epsilon. -/
def conflictStep (eps : ℚ) (checked unchecked : Annotation ) : Annotation :=
  let u1 :=
    if unchecked.overlaps checked then
      unchecked.updateYWithCorrection (unchecked.getXYCorrection checked eps)
    else unchecked
  if u1.isWithinEpsilonOf checked eps then u1.updateYWithCorrection (0, eps) else u1

/-- The greedy separation pass over one partition (lifegraph.py:828-841):
each candidate is compared (and possibly pushed) against every
already-placed label in placement order, then appended. -/
def placeAll (eps : ℚ) (placed : List Annotation ) : List Annotation → List Annotation
  | [] => placed
  | c :: rest =>
      placeAll eps (placed ++ [List.foldl (fun u ch => conflictStep eps ch u) c placed]) rest

/-- `Lifegraph.__resolve_annotation_conflicts` (lifegraph.py:772-843). -/
def resolveAnnotationConflicts (p : GraphParams) (l : List Annotation ) : List Annotation :=
  let sides := assignSides p l
  placeAll p.epsilon [] (sortStable ltLeft sides.1)
    ++ placeAll p.epsilon [] (sortStable ltRight sides.2)

/-- All pairs of distinct labels in a placed list have non-overlapping
boxes (the spec's no-overlap invariant, as a checkable predicate). -/
def pairwiseNoOverlap : List Annotation → Bool
  | [] => true
  | a :: rest => rest.all (fun b => !(a.overlaps b)) && pairwiseNoOverlap rest

/-- All pairs of distinct labels in a placed list are separated by more
than `eps` (the spec's minimum-separation invariant). -/
def pairwiseSeparated (eps : ℚ) : List Annotation → Bool
  | [] => true
  | a :: rest => rest.all (fun b => !(a.isWithinEpsilonOf b eps)) && pairwiseSeparated eps rest

/-- `Lifegraph.__is_annotation_visible` (lifegraph.py:845-850). -/
def isAnnotationVisible (p : GraphParams) (a : Annotation ) : Bool :=
  match a.sourceY with
  | none => true
  | some (yLo, yHi) => decide (yHi ≥ p.minAge) && decide (yLo < p.ymax)

/-! ## Registration: sides, hints, label points

`core.Side`, `Lifegraph.__sanitize_hint` and
`Lifegraph.__get_label_point`.  A hint may be passed either as a
`core.Point` object or as a tuple/array; `__sanitize_hint` mutates a
`Point` argument in place (the registration record aliases the very same
object), while a tuple is first copied into a fresh `Point`, leaving the
record's tuple untouched.  The two cases are kept apart here. -/

inductive Side where
  | LEFT
  | RIGHT
deriving DecidableEq

inductive Hint where
  | point (x y : ℚ)
  | tup (x y : ℚ)
deriving DecidableEq

/-- The coordinates of a hint value. -/
def hintXY : Hint → ℚ × ℚ
  | Hint.point hx hy => (hx, hy)
  | Hint.tup hx hy => (hx, hy)

/-- `Lifegraph.__sanitize_hint` (lifegraph.py:880-896) on the hint's
coordinates; `edge = 10`, and the second `if` tests the possibly already
updated x. -/
def sanitizeHintXY (p : GraphParams) (hx hy : ℚ) : ℚ × ℚ :=
  if p.minAge ≤ hy ∧ hy ≤ p.ymax then
    let x1 := if (xmaxC / 2 ≤ hx ∧ hx < xmaxC) ∨ xmaxC + 10 < hx then xmaxC else hx
    let x2 := if (0 < x1 ∧ x1 < xmaxC / 2) ∨ x1 < -10 then 0 else x1
    (x2, hy)
  else (hx, hy)

inductive RegError where
  | invalidDate
  | hintAndSide
  | unexpectedKeyword
deriving DecidableEq

/-- `Lifegraph.__get_label_point` (lifegraph.py:918-945): raises when
both hint and side are given; otherwise the label point is the sanitized
hint, overridden by the side (x only), defaulting to
`(default_x, default_y)`. -/
def getLabelPoint (p : GraphParams) (hint : Option Hint) (side : Option Side)
    (defaultX defaultY : ℚ) (isEra : Bool) : Except RegError (ℚ × ℚ) :=
  if hint.isSome && side.isSome then Except.error RegError.hintAndSide
  else
    let h' := hint.map (fun h0 => sanitizeHintXY p (hintXY h0).1 (hintXY h0).2)
    let base := match h' with
      | some q => q
      | none => (defaultX, defaultY)
    match side with
    | some Side.LEFT => Except.ok (if isEra then 1 else 0, base.2)
    | some Side.RIGHT => Except.ok (xmaxC, base.2)
    | none => Except.ok base

/-! ## Registration records and config serialization

The `_event_records` entries of `Lifegraph.add_life_event`
(lifegraph.py:252-255) and their treatment by
`serialization._build_config_dict` / `serialization.import_config`.
The JSON/YAML scalar layer is elided: an ISO date string round-trips to
the same date, a color string to the same string, a color tuple through
a list back to the same tuple, and a side through its lower-case name
back to the same member, so those fields are modelled by their values. -/

inductive MplColor where
  | named (s : String)
  | rgb (r g b : ℚ)
deriving DecidableEq

structure EventRecord where
  text : String
  date : PyDate
  color : MplColor
  hint : Option Hint
  side : Option Side
  colorSquare : Bool
deriving DecidableEq

/-- The `_event_records` entry as it exists after `add_life_event`
returns (or raises past the append): the dict holds the very `hint`
object the caller passed, and when that is a `Point` (and no side was
given, so `__get_label_point` reaches the sanitizer),
`__sanitize_hint` has mutated it in place. -/
def storedEventRecord (p : GraphParams) (text : String) (date : PyDate) (color : MplColor)
    (hint : Option Hint) (side : Option Side) (colorSquare : Bool) : EventRecord :=
  { text := text, date := date, color := color,
    hint := match hint, side with
      | some (Hint.point hx hy), none =>
          some (Hint.point (sanitizeHintXY p hx hy).1 (sanitizeHintXY p hx hy).2)
      | h, _ => h,
    side := side, colorSquare := colorSquare }

/-- The coordinates the stored record's hint carries by export time:
for a `Point`-supplied hint the sanitized coordinates (the record
aliases the mutated object), for a tuple the original coordinates. -/
def storedHintValue (p : GraphParams) : Hint → ℚ × ℚ
  | Hint.point hx hy => sanitizeHintXY p hx hy
  | Hint.tup hx hy => (hx, hy)

/-- One entry of the `events` list built by
`serialization._build_config_dict` (serialization.py:99-116): `hint`
becomes a `[x, y]` pair, `color_square` is omitted when it has its
default value `True`. -/
structure SerializedEvent where
  text : String
  date : PyDate
  color : MplColor
  hint : Option (ℚ × ℚ)
  side : Option Side
  colorSquare : Option Bool
deriving DecidableEq

def exportEventRecord (r : EventRecord) : SerializedEvent :=
  { text := r.text, date := r.date, color := r.color,
    hint := r.hint.map hintXY,
    side := r.side,
    colorSquare := if r.colorSquare then none else some false }

/-- `serialization.import_config` (serialization.py:288-296) parses a
`[x, y]` hint into a `Point` and calls `add_life_event`, which stores
(and sanitizes) it again. -/
def importEventRecord (p : GraphParams) (e : SerializedEvent) : EventRecord :=
  storedEventRecord p e.text e.date e.color
    (e.hint.map (fun q => Hint.point q.1 q.2)) e.side (e.colorSquare.getD true)

/-! ## Registration entry points as state transformers

`add_life_event` (lifegraph.py:245-267), `add_era` (303-331) and
`add_era_span` (372-407), with Python's statement order preserved: a
raise leaves every mutation made before it in place.  The final
`Annotation(...)` call in each of them passes the keyword
`source_y_range`, which `core.Annotation.__init__` does not accept, so
in the code as written each registration that gets that far raises
`TypeError` (modelled as `RegError.unexpectedKeyword`); the mutations
made before that point remain. -/

structure EraDrawing where
  text : String
  startPos : DatePosition
  endPos : DatePosition
  color : MplColor
  alpha : ℚ
deriving DecidableEq

structure EraSpanDrawing where
  text : String
  startPos : DatePosition
  endPos : DatePosition
  color : MplColor
  hasStartMarker : Bool
  hasEndMarker : Bool
deriving DecidableEq

structure EraRecord where
  text : String
  startDate : PyDate
  endDate : PyDate
  color : MplColor
  side : Option Side
  alpha : ℚ
deriving DecidableEq

structure EraSpanRecord where
  text : String
  startDate : PyDate
  endDate : PyDate
  color : MplColor
  hint : Option Hint
  side : Option Side
  colorMarkers : Bool
deriving DecidableEq

structure LifegraphState where
  annotations : List Annotation
  eras : List EraDrawing
  eraSpans : List EraSpanDrawing
  eventRecords : List EventRecord
  eraRecords : List EraRecord
  eraSpanRecords : List EraSpanRecord
deriving DecidableEq

/-- `Lifegraph.add_life_event`: validate the date, append the
registration record, compute the label point (which may raise on
hint+side, and sanitizes a `Point` hint in place), then construct the
`Annotation` — which in the code as written raises `TypeError` on the
`source_y_range` keyword. -/
def addLifeEvent (birth : PyDate) (ymaxYears : Int) (p : GraphParams) (g : LifegraphState)
    (text : String) (date : PyDate) (color : MplColor) (hint : Option Hint)
    (side : Option Side) (colorSquare : Bool) : LifegraphState × Option RegError :=
  if validateDateRaises birth ymaxYears date then (g, some RegError.invalidDate)
  else if hint.isSome && side.isSome then
    ({ g with eventRecords :=
        g.eventRecords ++
          [{ text := text, date := date, color := color, hint := hint,
             side := side, colorSquare := colorSquare }] },
     some RegError.hintAndSide)
  else
    ({ g with eventRecords :=
        g.eventRecords ++ [storedEventRecord p text date color hint side colorSquare] },
     some RegError.unexpectedKeyword)

/-- `Lifegraph.add_era`: validate both dates, append the record and the
era drawing, then construct the `Annotation` (raises `TypeError` on
`source_y_range`). -/
def addEra (birth : PyDate) (ymaxYears : Int) (g : LifegraphState)
    (text : String) (startDate endDate : PyDate) (color : MplColor)
    (side : Option Side) (alpha : ℚ) : LifegraphState × Option RegError :=
  if validateDateRaises birth ymaxYears startDate then (g, some RegError.invalidDate)
  else if validateDateRaises birth ymaxYears endDate then (g, some RegError.invalidDate)
  else
    ({ g with
        eraRecords := g.eraRecords ++
          [{ text := text, startDate := startDate, endDate := endDate,
             color := color, side := side, alpha := alpha }],
        eras := g.eras ++
          [{ text := text, startPos := toDatePosition birth startDate,
             endPos := toDatePosition birth endDate, color := color, alpha := alpha }] },
     some RegError.unexpectedKeyword)

/-- `Lifegraph.add_era_span`: validate both dates, append the record,
compute the label point (may raise on hint+side), append the dumbbell
drawing, then construct the `Annotation` (raises `TypeError` on
`source_y_range`). -/
def addEraSpan (birth : PyDate) (ymaxYears : Int) (p : GraphParams) (g : LifegraphState)
    (text : String) (startDate endDate : PyDate) (color : MplColor)
    (hint : Option Hint) (side : Option Side) (colorMarkers : Bool) :
    LifegraphState × Option RegError :=
  if validateDateRaises birth ymaxYears startDate then (g, some RegError.invalidDate)
  else if validateDateRaises birth ymaxYears endDate then (g, some RegError.invalidDate)
  else
    if hint.isSome && side.isSome then
      ({ g with eraSpanRecords :=
          g.eraSpanRecords ++
            [{ text := text, startDate := startDate, endDate := endDate,
               color := color, hint := hint, side := side, colorMarkers := colorMarkers }] },
       some RegError.hintAndSide)
    else
      -- `__get_label_point` sanitizes a `Point` hint in place; the record
      -- aliases that object, as in `storedEventRecord`
      let storedHint := match hint, side with
        | some (Hint.point hx hy), none =>
            some (Hint.point (sanitizeHintXY p hx hy).1 (sanitizeHintXY p hx hy).2)
        | h, _ => h
      ({ g with
          eraSpanRecords := g.eraSpanRecords ++
            [{ text := text, startDate := startDate, endDate := endDate,
               color := color, hint := storedHint, side := side,
               colorMarkers := colorMarkers }],
          eraSpans := g.eraSpans ++
            [{ text := text,
               startPos := toDatePosition birth startDate,
               endPos := toDatePosition birth endDate, color := color,
               hasStartMarker := colorMarkers, hasEndMarker := colorMarkers }] },
       some RegError.unexpectedKeyword)

/-- The `Annotation` that `add_era` (lifegraph.py:317-331) constructs
(with the `source_y_range` attribute its call passes): label point from
`__get_label_point(hint=None, side=side, default_x=xmax,
default_y=average(start.y, end.y), is_Era=True)`, `event_point` equal to
the label point, and `source_y_range = (start.y, end.y)`.  The measured
text size is supplied by the backend. -/
def eraAnnotation (birth : PyDate) (p : GraphParams) (w h : ℚ)
    (startDate endDate : PyDate) (side : Option Side) : Annotation :=
  let sp := toDatePosition birth startDate
  let ep := toDatePosition birth endDate
  let avg : ℚ := ((sp.y : ℚ) + (ep.y : ℚ)) / 2
  let lp := match getLabelPoint p none side xmaxC avg true with
    | Except.ok q => q
    | Except.error _ => (xmaxC, avg)  -- unreachable: hint is None
  { x := lp.1, y := lp.2, textW := w, textH := h, bbox := ⟨0, 0, 0, 0⟩,
    eventX := lp.1, eventY := lp.2, relpos := (1/2, 1/2),
    sourceY := some ((sp.y : ℚ), (ep.y : ℚ)) }

/-- One entry of the `eras` list built by `_build_config_dict`
(serialization.py:118-133): `side` is omitted when `None` and `alpha`
is omitted when it equals the default `0.3`. -/
structure SerializedEra where
  text : String
  startDate : PyDate
  endDate : PyDate
  color : MplColor
  side : Option Side
  alpha : Option ℚ
deriving DecidableEq

def exportEraRecord (r : EraRecord) : SerializedEra :=
  { text := r.text, startDate := r.startDate, endDate := r.endDate, color := r.color,
    side := r.side, alpha := if r.alpha = 3/10 then none else some r.alpha }

/-- `import_config` (serialization.py:299-307) calls `add_era` with
`alpha` defaulting to `0.3`; eras carry no hint, so the stored record
is rebuilt verbatim. -/
def importEraRecord (e : SerializedEra) : EraRecord :=
  { text := e.text, startDate := e.startDate, endDate := e.endDate, color := e.color,
    side := e.side, alpha := e.alpha.getD (3/10) }

/-- The `_era_span_records` entry as it exists after `add_era_span`
returns (or raises past the append): exactly like events, the dict
aliases the caller's hint object, and when that is a `Point` (and no
side was given, so `__get_label_point` reaches the sanitizer),
`__sanitize_hint` has mutated it in place. -/
def storedEraSpanRecord (p : GraphParams) (text : String) (startDate endDate : PyDate)
    (color : MplColor) (hint : Option Hint) (side : Option Side) (colorMarkers : Bool) :
    EraSpanRecord :=
  { text := text, startDate := startDate, endDate := endDate, color := color,
    hint := match hint, side with
      | some (Hint.point hx hy), none =>
          some (Hint.point (sanitizeHintXY p hx hy).1 (sanitizeHintXY p hx hy).2)
      | h, _ => h,
    side := side, colorMarkers := colorMarkers }

/-- One entry of the `era_spans` list built by `_build_config_dict`
(serialization.py:135-153): `hint` becomes a `[x, y]` pair,
`color_start_and_end_markers` is written only when `True`. -/
structure SerializedEraSpan where
  text : String
  startDate : PyDate
  endDate : PyDate
  color : MplColor
  hint : Option (ℚ × ℚ)
  side : Option Side
  colorMarkers : Option Bool
deriving DecidableEq

def exportEraSpanRecord (r : EraSpanRecord) : SerializedEraSpan :=
  { text := r.text, startDate := r.startDate, endDate := r.endDate, color := r.color,
    hint := r.hint.map hintXY, side := r.side,
    colorMarkers := if r.colorMarkers then some true else none }

/-- `import_config` (serialization.py:310-319) parses a `[x, y]` hint
into a `Point` and calls `add_era_span`, which stores (and sanitizes)
it again. -/
def importEraSpanRecord (p : GraphParams) (e : SerializedEraSpan) : EraSpanRecord :=
  storedEraSpanRecord p e.text e.startDate e.endDate e.color
    (e.hint.map (fun q => Hint.point q.1 q.2)) e.side (e.colorMarkers.getD false)

/-! ## The `source_y_range` keyword

CPython binds a keyword argument by name against the callee's parameter
list and raises `TypeError` on any name that does not occur in it.
`annotationInitParams` is the parameter list of `Annotation.__init__`
(core.py:138); `addLifeEventAnnotationKwargs` the keywords of the
`Annotation(...)` call in `add_life_event` (lifegraph.py:264-266). -/

def pyCallBindingOk (params : List String) (kwargs : List String) : Bool :=
  kwargs.all (fun k => params.contains k)

def annotationInitParams : List String :=
  [ "self", "date", "text", "label_point", "color", "bbox", "event_point",
    "put_circle_around_point", "marker", "relpos" ]

def addLifeEventAnnotationKwargs : List String :=
  [ "label_point", "color", "event_point", "marker", "source_y_range" ]

/-! ## Stability of a resolved layout

The fixed-point conditions under which a second resolver pass
reproduces its input unchanged (used for the determinism claim):
every annotation re-places to itself, the partition into left/right is
the input split in order, each partition is already in sort order, and
no pair in a partition triggers an overlap correction or an epsilon
nudge. -/

/-- Consecutive-pair sortedness with respect to a strict key order:
no element is strictly smaller than its predecessor. -/
def sortedByB (lt : Annotation → Annotation → Bool) : List Annotation → Bool
  | [] => true
  | [_] => true
  | a :: b :: rest => !lt b a && sortedByB lt (b :: rest)

/-- No later element conflicts (overlap or within-epsilon) with an
earlier one. -/
def noPairConflict (eps : ℚ) : List Annotation → Bool
  | [] => true
  | a :: rest =>
      rest.all (fun c => !c.overlaps a && !(c.isWithinEpsilonOf a eps)) &&
        noPairConflict eps rest

/-- A list of annotations is a fixed point of the resolver's phases. -/
def resolveStable (p : GraphParams) (m : List Annotation ) : Bool :=
  m.all (fun a => decide (placeStep p a = a))
    && decide ((assignSides p m).1 ++ (assignSides p m).2 = m)
    && sortedByB ltLeft (assignSides p m).1
    && sortedByB ltRight (assignSides p m).2
    && noPairConflict p.epsilon (assignSides p m).1
    && noPairConflict p.epsilon (assignSides p m).2

/-- A `Lifegraph` with nothing registered yet. -/
def emptyState : LifegraphState :=
  { annotations := [], eras := [], eraSpans := [],
    eventRecords := [], eraRecords := [], eraSpanRecords := [] }

/-! ## Concrete instances used by witnesses and counterexamples -/

/-- Default graph parameters of `Lifegraph(date(1990, 1, 1))`:
`min_age = 0`, `max_age = 90`, A3 offsets 6/5, `label_space_epsilon = 0.2`. -/
def defaultParams : GraphParams :=
  { minAge := 0, ymax := 90, leftOffset := 6, rightOffset := 5, epsilon := 1/5 }

/-- A tall label (measured 5 x 4) whose hint put it at `(52, 2.9)`;
its event is in row 0. -/
def exampleTallLabel : Annotation :=
  { x := 52, y := 29/10, textW := 5, textH := 4, bbox := ⟨0, 0, 0, 0⟩,
    eventX := 10, eventY := 0, relpos := (1/2, 1/2), sourceY := none }

/-- A small label (measured 5 x 1) whose hint put it at `(52, 0.3)`,
just above the tall label's box with a gap of 0.1 < epsilon; its event
is in row 1, so it is placed second on the right side. -/
def exampleNearLabel : Annotation :=
  { x := 52, y := 3/10, textW := 5, textH := 1, bbox := ⟨0, 0, 0, 0⟩,
    eventX := 10, eventY := 1, relpos := (1/2, 1/2), sourceY := none }

/-- The graph parameters of `Lifegraph(date(1990, 1, 1), max_age=65,
min_age=20)`. -/
def windowedParams : GraphParams :=
  { minAge := 20, ymax := 65, leftOffset := 6, rightOffset := 5, epsilon := 1/5 }

/-- The annotation registered by
`add_era("Era", date(2000, 6, 1), date(2018, 6, 1), side=Side.LEFT)` on
the windowed graph: source rows 10..28, label midpoint row 19, which is
below `min_age = 20`. -/
def windowedEraLabel : Annotation :=
  eraAnnotation ⟨1990, 1, 1⟩ windowedParams 5 1 ⟨2000, 6, 1⟩ ⟨2018, 6, 1⟩ (some Side.LEFT)

/-- A left-side event annotation (`side=Side.LEFT` makes the initial
label point `(0, row)`) used to instantiate side-forcing. -/
def exampleLeftLabel : Annotation :=
  { x := 0, y := 23, textW := 5, textH := 1, bbox := ⟨0, 0, 0, 0⟩,
    eventX := 10, eventY := 23, relpos := (1/2, 1/2), sourceY := some (23, 23) }

/-- Two overlapping unit labels at the same spot (already measured),
and one a hair above the other: inputs for the correction-step facts. -/
def stackedLabelA : Annotation :=
  { x := 57, y := 5, textW := 5, textH := 1, bbox := ⟨57, 9/2, 62, 11/2⟩,
    eventX := 10, eventY := 0, relpos := (0, 1/2), sourceY := none }

def stackedLabelB : Annotation :=
  { x := 57, y := 5, textW := 5, textH := 1, bbox := ⟨57, 9/2, 62, 11/2⟩,
    eventX := 20, eventY := 0, relpos := (0, 1/2), sourceY := none }

def stackedLabelC : Annotation :=
  { x := 57, y := 39/10, textW := 5, textH := 1, bbox := ⟨57, 34/10, 62, 44/10⟩,
    eventX := 30, eventY := 0, relpos := (0, 1/2), sourceY := none }

end Lifegraph

namespace Lifegraph

/-! ## Theorems -/

theorem pyDateLt_irrefl (a : PyDate) : pyDateLt a a = false := by
  simp [pyDateLt]

/-- Subtracting one day yields a strictly smaller date. -/
theorem prevDay_lt (d : PyDate) : pyDateLt (prevDay d) d = true := by
  unfold prevDay
  split_ifs with hday hmonth
  all_goals simp [pyDateLt]

/-- Adding a non-negative number of calendar years never goes backwards. -/
theorem addYears_not_lt (d : PyDate) (n : Int) (hd : d.Valid) (hn : 0 ≤ n) :
    pyDateLt (addYears d n) d = false := by
  obtain ⟨h1, h2, h3, h4⟩ := hd
  simp only [addYears, pyDateLt]
  rcases lt_or_eq_of_le hn with hpos | hzero
  · simp; omega
  · subst hzero; simp; omega

/-- C1: for every call to `add_life_event` with text, an in-range date,
and at most one of hint/side, registration is claimed to succeed with an
`Annotation` appended.  In the code as written it cannot: the
`Annotation(...)` call in `add_life_event` passes the keyword
`source_y_range`, which is not among the parameters of
`Annotation.__init__`, so CPython's keyword binding raises `TypeError`
on every registration that reaches the constructor. -/
theorem c1_annotation_call_binding :
    pyCallBindingOk annotationInitParams addLifeEventAnnotationKwargs = false
    ∧ annotationInitParams.contains "source_y_range" = false
    ∧ (addLifeEventAnnotationKwargs.filter fun k => !annotationInitParams.contains k)
        = [ "source_y_range" ] := by decide

/-- C2: the row computed by `__to_date_position` is claimed to be the
whole-calendar-years count (3 for a person born 2000-01-01 on
2003-12-31).  The code computes `delta.days // 365` instead: the day
difference is 1460 (the 2000 leap day accumulated), and `1460 // 365 =
4`, while the calendar-aware count of the spec (and of the repository's
own test `test_to_date_position_leap_year_accumulation`) is 3. -/
theorem c2_leap_year_row :
    (toDatePosition ⟨2000, 1, 1⟩ ⟨2003, 12, 31⟩).y = 4
    ∧ calendarYearsElapsed ⟨2000, 1, 1⟩ ⟨2003, 12, 31⟩ = 3
    ∧ toOrdinal ⟨2003, 12, 31⟩ - toOrdinal ⟨2000, 1, 1⟩ = 1460 := by decide

/-- C7: the visibility filter returns visible iff `hi ≥ min_age` and
`lo < max_age` for `source_y_range = (lo, hi)`; an annotation without a
source range is always visible. -/
theorem c7_visibility (p : GraphParams) (a : Annotation ) :
    isAnnotationVisible p a = true ↔
      match a.sourceY with
      | none => True
      | some q => q.2 ≥ p.minAge ∧ q.1 < p.ymax := by
  unfold isAnnotationVisible
  rcases a.sourceY with _ | ⟨lo, hi⟩ <;> simp

/-- Witness for C7: a concrete event annotation with source rows
(23, 23) is visible on the default graph. -/
theorem c7_visibility_witness :
    isAnnotationVisible defaultParams exampleLeftLabel = true :=
  (c7_visibility defaultParams exampleLeftLabel).mpr
    (by norm_num [exampleLeftLabel, defaultParams])

/-- C8: date validation raises exactly on dates outside the inclusive
range from the birth date to the birth date plus `max_age` calendar
years; in particular one day before the birth date raises and the exact
boundary date does not. -/
theorem c8_validate_boundaries (birth : PyDate) (ymaxYears : Int) (d : PyDate)
    (hb : birth.Valid) (hy : 0 ≤ ymaxYears) :
    (validateDateRaises birth ymaxYears d = true ↔
      (pyDateLt d birth = true ∨ pyDateLt (addYears birth ymaxYears) d = true))
    ∧ validateDateRaises birth ymaxYears (prevDay birth) = true
    ∧ validateDateRaises birth ymaxYears (addYears birth ymaxYears) = false := by
  refine ⟨by simp [validateDateRaises], ?_, ?_⟩
  · unfold validateDateRaises
    rw [prevDay_lt birth, Bool.true_or]
  · unfold validateDateRaises
    rw [addYears_not_lt birth ymaxYears hb hy, pyDateLt_irrefl, Bool.or_self]

/-- Witness for C8 at the birth date 1990-01-01 with `max_age = 80`
(the repository's own `test_validate_date` scenario). -/
theorem c8_validate_boundaries_witness :
    PyDate.Valid ⟨1990, 1, 1⟩ ∧ (0 : Int) ≤ 80
    ∧ validateDateRaises ⟨1990, 1, 1⟩ 80 (prevDay ⟨1990, 1, 1⟩) = true
    ∧ validateDateRaises ⟨1990, 1, 1⟩ 80 (addYears ⟨1990, 1, 1⟩ 80) = false :=
  ⟨by decide, by decide,
   (c8_validate_boundaries ⟨1990, 1, 1⟩ 80 ⟨1990, 1, 1⟩ (by decide) (by decide)).2⟩


/-- C5: during greedy separation, an overlapping candidate is shifted
down by exactly `|placed.ymax - candidate.ymin| + epsilon`, translating
its position and bounding box together (and is then still subject to the
independent epsilon test); independently, when the boxes are within
epsilon without geometric overlap the candidate is shifted down by a
flat epsilon.  The third conjunct spells out that a shift moves the
position and both box ordinates by the same amount and leaves all
x values unchanged. -/
theorem c5_correction_amounts (u c : Annotation ) (eps : ℚ) :
    (u.overlaps c = true →
      conflictStep eps c u =
        (let u1 := shiftY (|c.bbox.y1 - u.bbox.y0| + eps) u
         if u1.isWithinEpsilonOf c eps then shiftY eps u1 else u1))
    ∧ (u.overlaps c = false → u.isWithinEpsilonOf c eps = true →
        conflictStep eps c u = shiftY eps u)
    ∧ (∀ d : ℚ, (shiftY d u).y = u.y + d ∧ (shiftY d u).bbox.y0 = u.bbox.y0 + d
        ∧ (shiftY d u).bbox.y1 = u.bbox.y1 + d ∧ (shiftY d u).x = u.x
        ∧ (shiftY d u).bbox.x0 = u.bbox.x0 ∧ (shiftY d u).bbox.x1 = u.bbox.x1) := by
  refine ⟨?_, ?_, ?_⟩
  · intro h
    simp only [conflictStep, h, if_true]
    rfl
  · intro h hw
    simp only [conflictStep, h, if_false, hw, if_true, Bool.false_eq_true]
    rfl
  · intro d
    simp [shiftY]

/-- Witness for C5: two coincident placed unit labels (overlap branch)
and a label within epsilon above a placed one (near-miss branch). -/
theorem c5_correction_amounts_witness :
    (stackedLabelB.overlaps stackedLabelA = true ∧
      conflictStep (1/5) stackedLabelA stackedLabelB =
        (let u1 := shiftY (|stackedLabelA.bbox.y1 - stackedLabelB.bbox.y0| + 1/5) stackedLabelB
         if u1.isWithinEpsilonOf stackedLabelA (1/5) then shiftY (1/5) u1 else u1))
    ∧ (stackedLabelC.overlaps stackedLabelA = false
        ∧ stackedLabelC.isWithinEpsilonOf stackedLabelA (1/5) = true
        ∧ conflictStep (1/5) stackedLabelA stackedLabelC = shiftY (1/5) stackedLabelC) :=
  ⟨⟨by with_unfolding_all decide,
    (c5_correction_amounts stackedLabelB stackedLabelA (1/5)).1 (by with_unfolding_all decide)⟩,
   by with_unfolding_all decide, by with_unfolding_all decide,
   (c5_correction_amounts stackedLabelC stackedLabelA (1/5)).2.1
     (by with_unfolding_all decide) (by with_unfolding_all decide)⟩

/-- C3 (counterexample): the final label set produced by the resolver is
not always pairwise non-overlapping.  On the default graph, a small
hinted label 0.1 above a tall placed label is within epsilon without
overlapping, receives the flat epsilon nudge, and ends up overlapping
the tall label; both labels are in the right partition (the left one is
empty). -/
theorem c3_no_overlap_invariant_cex :
    pairwiseNoOverlap
        (resolveAnnotationConflicts defaultParams [ exampleTallLabel, exampleNearLabel ])
      = false
    ∧ (assignSides defaultParams [ exampleTallLabel, exampleNearLabel ]).1 = [] := by
  with_unfolding_all decide

/-- C3 (amended): what the overlap branch does guarantee: immediately
after an overlap correction of a candidate against a placed label, the
candidate's box lies at least epsilon below that label's box, hence the
two no longer overlap at that moment.  (The final set need not be
pairwise non-overlapping: a later flat epsilon nudge can push a
candidate back into a taller placed label, see the counterexample.) -/
theorem c3_overlap_correction_separates (u c : Annotation ) (eps : ℚ) (heps : 0 ≤ eps) :
    eps ≤ (u.updateYWithCorrection (u.getXYCorrection c eps)).bbox.y0 - c.bbox.y1
    ∧ (u.updateYWithCorrection (u.getXYCorrection c eps)).overlaps c = false := by
  have habs := le_abs_self (c.bbox.y1 - u.bbox.y0)
  constructor
  · simp only [ Annotation.updateYWithCorrection, Annotation.getXYCorrection]
    linarith
  · unfold Annotation.overlaps
    split_ifs with h1 h2
    · rfl
    · rfl
    · exfalso
      apply h2
      left
      simp only [ Annotation.updateYWithCorrection, Annotation.getXYCorrection]
      linarith

/-- Witness for C3 (amended) on two concrete overlapping labels. -/
theorem c3_overlap_correction_separates_witness :
    (0 : ℚ) ≤ 1/5
    ∧ (1/5 : ℚ) ≤ (stackedLabelB.updateYWithCorrection
        (stackedLabelB.getXYCorrection stackedLabelA (1/5))).bbox.y0 - stackedLabelA.bbox.y1
    ∧ (stackedLabelB.updateYWithCorrection
        (stackedLabelB.getXYCorrection stackedLabelA (1/5))).overlaps stackedLabelA = false :=
  ⟨by norm_num,
   (c3_overlap_correction_separates stackedLabelB stackedLabelA (1/5) (by norm_num)).1,
   (c3_overlap_correction_separates stackedLabelB stackedLabelA (1/5) (by norm_num)).2⟩

/-- Hint sanitization is idempotent: a hint that has already been
snapped to a grid edge (or left in place) is not moved again. -/
theorem sanitizeHintXY_idem (p : GraphParams) (hx hy : ℚ) :
    sanitizeHintXY p (sanitizeHintXY p hx hy).1 (sanitizeHintXY p hx hy).2
      = sanitizeHintXY p hx hy := by
  unfold sanitizeHintXY
  simp only [xmaxC]
  split_ifs with h1 h2 h3 h4 h5 h6 h7
  all_goals simp_all
  all_goals norm_num at *



/-- C6 (counterexample): the exported hint does not always equal the
hint the caller supplied.  `add_life_event("e", ..., hint=Point(25, 3))`
on the default graph stores the caller's `Point`, which
`__sanitize_hint` mutates to `(0, 3)` (its x is inside the grid body),
so the config written by `save_config` contains `[0, 3]`, not `[25, 3]`. -/
theorem c6_roundtrip_cex :
    (exportEventRecord (storedEventRecord defaultParams "e" ⟨2000, 6, 1⟩
        (MplColor.named "red") (some (Hint.point 25 3)) none true)).hint = some (0, 3)
    ∧ some ((0 : ℚ), (3 : ℚ)) ≠ some ((25 : ℚ), (3 : ℚ)) := by
  constructor
  · with_unfolding_all decide
  · with_unfolding_all decide

/-- C6 (amended): for every registration kind, export preserves text,
dates, color, side and the per-kind flag exactly, and an era record
(which has no hint) round-trips verbatim through export and import;
the exported hint of an event or era-span registration is the sanitized
form of the supplied hint when it was a `Point` (mutated in place by
`__sanitize_hint`) and the original coordinates when it was a tuple;
importing parses hints into `Point`s and sanitizes again, which is
idempotent, so every field of the re-imported record agrees with the
stored one up to one application of sanitization to the hint. -/
theorem c6_roundtrip_amended (p : GraphParams) (t : String) (d : PyDate) (c : MplColor)
    (h : Option Hint) (s : Option Side) (b : Bool)
    (te : String) (sde ede : PyDate) (ce : MplColor) (se : Option Side) (al : ℚ)
    (ts : String) (sds eds : PyDate) (cs : MplColor) (hsp : Option Hint)
    (ss : Option Side) (bs : Bool)
    (hhs : h = none ∨ s = none) (hhs2 : hsp = none ∨ ss = none) :
    ((exportEventRecord (storedEventRecord p t d c h s b)).text = t
      ∧ (exportEventRecord (storedEventRecord p t d c h s b)).date = d
      ∧ (exportEventRecord (storedEventRecord p t d c h s b)).color = c
      ∧ (exportEventRecord (storedEventRecord p t d c h s b)).side = s
      ∧ (exportEventRecord (storedEventRecord p t d c h s b)).colorSquare.getD true = b)
    ∧ (exportEventRecord (storedEventRecord p t d c h s b)).hint = h.map (storedHintValue p)
    ∧ (∀ hx hy, h = some (Hint.tup hx hy) →
        (exportEventRecord (storedEventRecord p t d c h s b)).hint = some (hx, hy))
    ∧ ((importEventRecord p (exportEventRecord (storedEventRecord p t d c h s b))).text = t
      ∧ (importEventRecord p (exportEventRecord (storedEventRecord p t d c h s b))).date = d
      ∧ (importEventRecord p (exportEventRecord (storedEventRecord p t d c h s b))).color = c
      ∧ (importEventRecord p (exportEventRecord (storedEventRecord p t d c h s b))).side = s
      ∧ (importEventRecord p
          (exportEventRecord (storedEventRecord p t d c h s b))).colorSquare = b
      ∧ (importEventRecord p
            (exportEventRecord (storedEventRecord p t d c h s b))).hint.map hintXY
          = h.map (fun h0 => sanitizeHintXY p (hintXY h0).1 (hintXY h0).2))
    ∧ importEraRecord (exportEraRecord
          { text := te, startDate := sde, endDate := ede, color := ce, side := se,
            alpha := al })
        = { text := te, startDate := sde, endDate := ede, color := ce, side := se,
            alpha := al }
    ∧ ((exportEraSpanRecord (storedEraSpanRecord p ts sds eds cs hsp ss bs)).text = ts
      ∧ (exportEraSpanRecord (storedEraSpanRecord p ts sds eds cs hsp ss bs)).startDate = sds
      ∧ (exportEraSpanRecord (storedEraSpanRecord p ts sds eds cs hsp ss bs)).endDate = eds
      ∧ (exportEraSpanRecord (storedEraSpanRecord p ts sds eds cs hsp ss bs)).color = cs
      ∧ (exportEraSpanRecord (storedEraSpanRecord p ts sds eds cs hsp ss bs)).side = ss
      ∧ (exportEraSpanRecord
          (storedEraSpanRecord p ts sds eds cs hsp ss bs)).colorMarkers.getD false = bs)
    ∧ (exportEraSpanRecord (storedEraSpanRecord p ts sds eds cs hsp ss bs)).hint
        = hsp.map (storedHintValue p)
    ∧ (∀ hx hy, hsp = some (Hint.tup hx hy) →
        (exportEraSpanRecord (storedEraSpanRecord p ts sds eds cs hsp ss bs)).hint
          = some (hx, hy))
    ∧ ((importEraSpanRecord p
          (exportEraSpanRecord (storedEraSpanRecord p ts sds eds cs hsp ss bs))).text = ts
      ∧ (importEraSpanRecord p
          (exportEraSpanRecord (storedEraSpanRecord p ts sds eds cs hsp ss bs))).startDate = sds
      ∧ (importEraSpanRecord p
          (exportEraSpanRecord (storedEraSpanRecord p ts sds eds cs hsp ss bs))).endDate = eds
      ∧ (importEraSpanRecord p
          (exportEraSpanRecord (storedEraSpanRecord p ts sds eds cs hsp ss bs))).color = cs
      ∧ (importEraSpanRecord p
          (exportEraSpanRecord (storedEraSpanRecord p ts sds eds cs hsp ss bs))).side = ss
      ∧ (importEraSpanRecord p
          (exportEraSpanRecord
            (storedEraSpanRecord p ts sds eds cs hsp ss bs))).colorMarkers = bs
      ∧ (importEraSpanRecord p
            (exportEraSpanRecord (storedEraSpanRecord p ts sds eds cs hsp ss bs))).hint.map
              hintXY
          = hsp.map (fun h0 => sanitizeHintXY p (hintXY h0).1 (hintXY h0).2))
    ∧ (∀ hx hy, sanitizeHintXY p (sanitizeHintXY p hx hy).1 (sanitizeHintXY p hx hy).2
        = sanitizeHintXY p hx hy) := by
  refine ⟨?_, ?_, ?_, ?_, ?_, ?_, ?_, ?_, ?_, fun hx hy => sanitizeHintXY_idem p hx hy⟩
  · rcases h with _ | (⟨hx, hy⟩ | ⟨hx, hy⟩) <;> rcases s with _ | s0 <;>
      simp_all [storedEventRecord, exportEventRecord] <;> cases b <;> simp
  · rcases h with _ | h0
    · rfl
    · rcases h0 with ⟨hx, hy⟩ | ⟨hx, hy⟩
      · rcases hhs with hn | hn
        · exact absurd hn (by simp)
        · subst hn
          simp [storedEventRecord, exportEventRecord, storedHintValue, hintXY]
      · rcases s with _ | s0 <;>
          simp [storedEventRecord, exportEventRecord, storedHintValue, hintXY]
  · intro hx hy hh
    subst hh
    rcases s with _ | s0 <;> simp [storedEventRecord, exportEventRecord, hintXY]
  · rcases h with _ | h0
    · simp [storedEventRecord, exportEventRecord, importEventRecord]
      cases b <;> simp
    · rcases h0 with ⟨hx, hy⟩ | ⟨hx, hy⟩
      · rcases hhs with hn | hn
        · exact absurd hn (by simp)
        · subst hn
          simp [storedEventRecord, exportEventRecord, importEventRecord, hintXY,
            sanitizeHintXY_idem]
          cases b <;> simp
      · rcases s with _ | s0 <;>
          (simp_all [storedEventRecord, exportEventRecord, importEventRecord, hintXY];
            try (cases b <;> simp))
  · by_cases hal : al = 3/10 <;> simp [exportEraRecord, importEraRecord, hal]
  · rcases hsp with _ | (⟨hx, hy⟩ | ⟨hx, hy⟩) <;> rcases ss with _ | s0 <;>
      simp_all [storedEraSpanRecord, exportEraSpanRecord] <;> cases bs <;> simp
  · rcases hsp with _ | h0
    · rfl
    · rcases h0 with ⟨hx, hy⟩ | ⟨hx, hy⟩
      · rcases hhs2 with hn | hn
        · exact absurd hn (by simp)
        · subst hn
          simp [storedEraSpanRecord, exportEraSpanRecord, storedHintValue, hintXY]
      · rcases ss with _ | s0 <;>
          simp [storedEraSpanRecord, exportEraSpanRecord, storedHintValue, hintXY]
  · intro hx hy hh
    subst hh
    rcases ss with _ | s0 <;> simp [storedEraSpanRecord, exportEraSpanRecord, hintXY]
  · rcases hsp with _ | h0
    · simp [storedEraSpanRecord, exportEraSpanRecord, importEraSpanRecord]
      cases bs <;> simp
    · rcases h0 with ⟨hx, hy⟩ | ⟨hx, hy⟩
      · rcases hhs2 with hn | hn
        · exact absurd hn (by simp)
        · subst hn
          simp [storedEraSpanRecord, exportEraSpanRecord, importEraSpanRecord, hintXY,
            sanitizeHintXY_idem]
          cases bs <;> simp
      · rcases ss with _ | s0 <;>
          (simp_all [storedEraSpanRecord, exportEraSpanRecord, importEraSpanRecord, hintXY];
            try (cases bs <;> simp))

/-- Witness for C6 (amended): a tuple-supplied event hint, a non-default
era alpha, and a `Point`-supplied era-span hint. -/
theorem c6_roundtrip_amended_witness :
    (some (Hint.tup 25 3) = none ∨ (none : Option Side) = none)
    ∧ (some (Hint.point 30 25) = none ∨ (none : Option Side) = none)
    ∧ (exportEventRecord (storedEventRecord defaultParams "e" ⟨2000, 6, 1⟩
          (MplColor.named "red") (some (Hint.tup 25 3)) none true)).hint
        = (some (Hint.tup 25 3)).map (storedHintValue defaultParams)
    ∧ importEraRecord (exportEraRecord
          { text := "era", startDate := ⟨2000, 1, 1⟩, endDate := ⟨2005, 1, 1⟩,
            color := MplColor.named "blue", side := none, alpha := (1 : ℚ)/2 })
        = { text := "era", startDate := ⟨2000, 1, 1⟩, endDate := ⟨2005, 1, 1⟩,
            color := MplColor.named "blue", side := none, alpha := (1 : ℚ)/2 }
    ∧ (exportEraSpanRecord (storedEraSpanRecord defaultParams "span" ⟨2015, 6, 1⟩
          ⟨2015, 8, 30⟩ (MplColor.rgb 1 0 0) (some (Hint.point 30 25)) none false)).hint
        = (some (Hint.point 30 25)).map (storedHintValue defaultParams) :=
  ⟨Or.inr rfl, Or.inr rfl,
   (c6_roundtrip_amended defaultParams "e" ⟨2000, 6, 1⟩ (MplColor.named "red")
     (some (Hint.tup 25 3)) none true "era" ⟨2000, 1, 1⟩ ⟨2005, 1, 1⟩
     (MplColor.named "blue") none ((1 : ℚ)/2) "span" ⟨2015, 6, 1⟩ ⟨2015, 8, 30⟩
     (MplColor.rgb 1 0 0) (some (Hint.point 30 25)) none false
     (Or.inr rfl) (Or.inr rfl)).2.1,
   (c6_roundtrip_amended defaultParams "e" ⟨2000, 6, 1⟩ (MplColor.named "red")
     (some (Hint.tup 25 3)) none true "era" ⟨2000, 1, 1⟩ ⟨2005, 1, 1⟩
     (MplColor.named "blue") none ((1 : ℚ)/2) "span" ⟨2015, 6, 1⟩ ⟨2015, 8, 30⟩
     (MplColor.rgb 1 0 0) (some (Hint.point 30 25)) none false
     (Or.inr rfl) (Or.inr rfl)).2.2.2.2.1,
   (c6_roundtrip_amended defaultParams "e" ⟨2000, 6, 1⟩ (MplColor.named "red")
     (some (Hint.tup 25 3)) none true "era" ⟨2000, 1, 1⟩ ⟨2005, 1, 1⟩
     (MplColor.named "blue") none ((1 : ℚ)/2) "span" ⟨2015, 6, 1⟩ ⟨2015, 8, 30⟩
     (MplColor.rgb 1 0 0) (some (Hint.point 30 25)) none false
     (Or.inr rfl) (Or.inr rfl)).2.2.2.2.2.2.1⟩


/-- C10: registration is atomic with respect to date-validation failure:
if `add_life_event`, `add_era` or `add_era_span` raises because a
supplied date is out of range, the chart state is returned unchanged
(validation is the first statement of each method, before any append). -/
theorem c10_validation_atomic (birth : PyDate) (ymaxYears : Int) (p : GraphParams)
    (g : LifegraphState) (t : String) (d sd ed : PyDate) (c : MplColor)
    (h : Option Hint) (s : Option Side) (b : Bool) (al : ℚ)
    (hd : validateDateRaises birth ymaxYears d = true)
    (hse : validateDateRaises birth ymaxYears sd = true
            ∨ validateDateRaises birth ymaxYears ed = true) :
    addLifeEvent birth ymaxYears p g t d c h s b = (g, some RegError.invalidDate)
    ∧ addEra birth ymaxYears g t sd ed c s al = (g, some RegError.invalidDate)
    ∧ addEraSpan birth ymaxYears p g t sd ed c h s b = (g, some RegError.invalidDate) := by
  refine ⟨?_, ?_, ?_⟩
  · simp [addLifeEvent, hd]
  · unfold addEra
    split_ifs with hA hB
    · rfl
    · rfl
    · exfalso; tauto
  · unfold addEraSpan
    split_ifs with hA hB hC
    · rfl
    · rfl
    · exfalso; tauto
    · exfalso; tauto

/-- Witness for C10: the out-of-range dates of the repository's own
`test_validate_date`/`test_add_era_validates_dates` on a fresh graph. -/
theorem c10_validation_atomic_witness :
    validateDateRaises ⟨1990, 1, 1⟩ 80 ⟨1989, 12, 31⟩ = true
    ∧ (validateDateRaises ⟨1990, 1, 1⟩ 80 ⟨1989, 1, 1⟩ = true
        ∨ validateDateRaises ⟨1990, 1, 1⟩ 80 ⟨2000, 1, 1⟩ = true)
    ∧ addLifeEvent ⟨1990, 1, 1⟩ 80 defaultParams emptyState "e" ⟨1989, 12, 31⟩
        (MplColor.named "r") none none true = (emptyState, some RegError.invalidDate)
    ∧ addEra ⟨1990, 1, 1⟩ 80 emptyState "e" ⟨1989, 1, 1⟩ ⟨2000, 1, 1⟩
        (MplColor.named "r") none (3/10) = (emptyState, some RegError.invalidDate) :=
  ⟨by decide, Or.inl (by decide),
   (c10_validation_atomic ⟨1990, 1, 1⟩ 80 defaultParams emptyState "e" ⟨1989, 12, 31⟩
      ⟨1989, 1, 1⟩ ⟨2000, 1, 1⟩ (MplColor.named "r") none none true (3/10)
      (by decide) (Or.inl (by decide))).1,
   (c10_validation_atomic ⟨1990, 1, 1⟩ 80 defaultParams emptyState "e" ⟨1989, 12, 31⟩
      ⟨1989, 1, 1⟩ ⟨2000, 1, 1⟩ (MplColor.named "r") none none true (3/10)
      (by decide) (Or.inl (by decide))).2.1⟩


theorem conflictStep_noop (eps : ℚ) (e c : Annotation )
    (h1 : c.overlaps e = false) (h2 : c.isWithinEpsilonOf e eps = false) :
    conflictStep eps e c = c := by
  simp [conflictStep, h1, h2]

theorem foldl_conflictStep_noop (eps : ℚ) (acc : List Annotation ) (c : Annotation )
    (hacc : ∀ e ∈ acc, c.overlaps e = false ∧ c.isWithinEpsilonOf e eps = false) :
    List.foldl (fun u ch => conflictStep eps ch u) c acc = c := by
  induction acc with
  | nil => rfl
  | cons e es ih =>
    have he := hacc e (by simp)
    simp only [List.foldl_cons, conflictStep_noop eps e c he.1 he.2]
    exact ih (fun e' he' => hacc e' (by simp [he']))

theorem placeAll_noop (eps : ℚ) (acc l : List Annotation )
    (hacc : ∀ c ∈ l, ∀ e ∈ acc, c.overlaps e = false ∧ c.isWithinEpsilonOf e eps = false)
    (hconf : noPairConflict eps l = true) :
    placeAll eps acc l = acc ++ l := by
  induction l generalizing acc with
  | nil => simp [placeAll]
  | cons c rest ih =>
    simp only [noPairConflict, Bool.and_eq_true, List.all_eq_true,
      Bool.not_eq_true'] at hconf
    have hc : List.foldl (fun u ch => conflictStep eps ch u) c acc = c :=
      foldl_conflictStep_noop eps acc c (hacc c (by simp))
    rw [placeAll, hc]
    rw [ih (acc ++ [c]) ?_ hconf.2]
    · simp
    · intro c' hc' e he
      rcases List.mem_append.mp he with hea | heb
      · exact hacc c' (by simp [hc']) e hea
      · have := hconf.1 c' hc'
        simp only [List.mem_singleton] at heb
        subst heb
        exact ⟨this.1, this.2⟩

theorem sortStable_eq_self (lt : Annotation → Annotation → Bool) (l : List Annotation )
    (hs : sortedByB lt l = true) : sortStable lt l = l := by
  induction l with
  | nil => rfl
  | cons a rest ih =>
    cases rest with
    | nil => rfl
    | cons b r =>
      simp only [sortedByB, Bool.and_eq_true, Bool.not_eq_true'] at hs
      show insertSorted lt a (sortStable lt (b :: r)) = a :: b :: r
      rw [ih hs.2]
      simp [insertSorted, hs.1]

theorem assignSides_fst_eq (p : GraphParams) (m : List Annotation )
    (hfix : ∀ a ∈ m, placeStep p a = a) :
    (assignSides p m).1 = m.filter (fun a => goesLeft p a) := by
  induction m with
  | nil => rfl
  | cons a rest ih =>
    have ha := hfix a (by simp)
    have ih' := ih (fun b hb => hfix b (by simp [hb]))
    by_cases hgl : goesLeft p a = true <;>
      simp_all [assignSides, List.filterMap_cons, List.filter_cons]

theorem assignSides_snd_eq (p : GraphParams) (m : List Annotation )
    (hfix : ∀ a ∈ m, placeStep p a = a) :
    (assignSides p m).2 = m.filter (fun a => !goesLeft p a) := by
  induction m with
  | nil => rfl
  | cons a rest ih =>
    have ha := hfix a (by simp)
    have ih' := ih (fun b hb => hfix b (by simp [hb]))
    by_cases hgl : goesLeft p a = true <;>
      simp_all [assignSides, List.filterMap_cons, List.filter_cons]

/-- A stable layout is a fixed point of the whole resolver. -/
theorem resolveStable_fixed (p : GraphParams) (m : List Annotation )
    (hs : resolveStable p m = true) : resolveAnnotationConflicts p m = m := by
  unfold resolveStable at hs
  simp only [Bool.and_eq_true, List.all_eq_true, decide_eq_true_eq] at hs
  obtain ⟨⟨⟨⟨⟨hfix, happ⟩, hsortL⟩, hsortR⟩, hconfL⟩, hconfR⟩ := hs
  show placeAll p.epsilon [] (sortStable ltLeft (assignSides p m).1)
      ++ placeAll p.epsilon [] (sortStable ltRight (assignSides p m).2) = m
  rw [sortStable_eq_self _ _ hsortL, sortStable_eq_self _ _ hsortR,
      placeAll_noop _ _ _ (by simp) hconfL, placeAll_noop _ _ _ (by simp) hconfR]
  simpa using happ

/-- C4 (counterexample): resolution is not idempotent across render
passes.  The resolver mutates the stored annotations; a second pass
starts from the first pass's output, and when that output still contains
a conflicting pair (see the no-overlap counterexample) the second pass
pushes labels further, yielding different final positions. -/
theorem c4_resolve_not_idempotent_cex :
    resolveAnnotationConflicts defaultParams
        (resolveAnnotationConflicts defaultParams [ exampleTallLabel, exampleNearLabel ])
      ≠ resolveAnnotationConflicts defaultParams [ exampleTallLabel, exampleNearLabel ] := by
  with_unfolding_all decide

/-- C4 (amended): a second resolver pass re-derives nothing from stored
hint/side state — it re-measures at the mutated positions and continues
from them, so resolution is not idempotent in general (see the
counterexample).  When the first pass's output is stable — every
annotation re-places to itself, the partition concatenation is the list
itself in order, each partition is in sort order, and no same-partition
pair overlaps or is within epsilon — the second pass reproduces the
first pass's output unchanged. -/
theorem c4_resolve_idempotent_when_stable (p : GraphParams) (l : List Annotation )
    (hs : resolveStable p (resolveAnnotationConflicts p l) = true) :
    resolveAnnotationConflicts p (resolveAnnotationConflicts p l)
      = resolveAnnotationConflicts p l :=
  resolveStable_fixed p (resolveAnnotationConflicts p l) hs

/-- Witness for C4 (amended): a single left-side label is stable after
one pass, and re-resolving reproduces it. -/
theorem c4_resolve_idempotent_when_stable_witness :
    resolveStable defaultParams
        (resolveAnnotationConflicts defaultParams [ exampleLeftLabel ]) = true
    ∧ resolveAnnotationConflicts defaultParams
        (resolveAnnotationConflicts defaultParams [ exampleLeftLabel ])
      = resolveAnnotationConflicts defaultParams [ exampleLeftLabel ] :=
  ⟨by with_unfolding_all decide,
   c4_resolve_idempotent_when_stable defaultParams [ exampleLeftLabel ]
     (by with_unfolding_all decide)⟩


theorem updateY_eq_shiftY (u : Annotation ) (corr : ℚ × ℚ) :
    u.updateYWithCorrection corr = shiftY corr.2 u := rfl

theorem shiftY_zero (a : Annotation ) : shiftY 0 a = a := by
  obtain ⟨ax, ay, aw, ah, ⟨bx0, by0, bx1, by1⟩, aex, aey, arp, asy⟩ := a
  simp [shiftY]

theorem shiftY_shiftY (d1 d2 : ℚ) (a : Annotation ) :
    shiftY d2 (shiftY d1 a) = shiftY (d1 + d2) a := by
  obtain ⟨ax, ay, aw, ah, ⟨bx0, by0, bx1, by1⟩, aex, aey, arp, asy⟩ := a
  simp [shiftY]
  refine ⟨by ring, by ring, by ring⟩

/-- Every comparison of the greedy loop only moves the candidate down
(by a non-negative amount), in lockstep with its box. -/
theorem conflictStep_shift (eps : ℚ) (heps : 0 ≤ eps) (e u : Annotation ) :
    ∃ d, 0 ≤ d ∧ conflictStep eps e u = shiftY d u := by
  unfold conflictStep
  have habs : 0 ≤ |e.bbox.y1 - u.bbox.y0| := abs_nonneg _
  by_cases h1 : u.overlaps e = true
  · rw [if_pos h1, updateY_eq_shiftY]
    set d1 := (u.getXYCorrection e eps).2 with hd1
    have hd1v : d1 = |e.bbox.y1 - u.bbox.y0| + eps := rfl
    by_cases h2 : (shiftY d1 u).isWithinEpsilonOf e eps = true
    · rw [if_pos h2, updateY_eq_shiftY, shiftY_shiftY]
      exact ⟨d1 + eps, by rw [hd1v]; linarith, rfl⟩
    · rw [if_neg h2]
      exact ⟨d1, by rw [hd1v]; linarith, rfl⟩
  · rw [if_neg h1]
    by_cases h2 : u.isWithinEpsilonOf e eps = true
    · rw [if_pos h2, updateY_eq_shiftY]
      exact ⟨eps, heps, rfl⟩
    · rw [if_neg h2]
      exact ⟨0, le_refl 0, (shiftY_zero u).symm⟩

theorem foldl_conflictStep_shift (eps : ℚ) (heps : 0 ≤ eps) (acc : List Annotation )
    (u : Annotation ) :
    ∃ d, 0 ≤ d ∧ List.foldl (fun x ch => conflictStep eps ch x) u acc = shiftY d u := by
  induction acc generalizing u with
  | nil => exact ⟨0, le_refl 0, (shiftY_zero u).symm⟩
  | cons e es ih =>
    obtain ⟨d1, hd1, h1⟩ := conflictStep_shift eps heps e u
    obtain ⟨d2, hd2, h2⟩ := ih (shiftY d1 u)
    refine ⟨d1 + d2, by linarith, ?_⟩
    simp only [List.foldl_cons, h1, h2, shiftY_shiftY]

theorem placeAll_append (eps : ℚ) (placed l : List Annotation ) :
    ∃ s, placeAll eps placed l = placed ++ s := by
  induction l generalizing placed with
  | nil => exact ⟨[], by simp [placeAll]⟩
  | cons c rest ih =>
    obtain ⟨s, hs⟩ := ih (placed ++ [List.foldl (fun x ch => conflictStep eps ch x) c placed])
    exact ⟨List.foldl (fun x ch => conflictStep eps ch x) c placed :: s,
      by rw [placeAll, hs]; simp⟩

/-- Every input of the greedy pass appears in the output shifted down by
some non-negative amount. -/
theorem placeAll_mem (eps : ℚ) (heps : 0 ≤ eps) (l : List Annotation ) :
    ∀ acc c, c ∈ l → ∃ d, 0 ≤ d ∧ shiftY d c ∈ placeAll eps acc l := by
  induction l with
  | nil => intro acc c hc; cases hc
  | cons c0 rest ih =>
    intro acc c hc
    rcases List.mem_cons.mp hc with hceq | hcrest
    · subst hceq
      obtain ⟨d, hd, hfold⟩ := foldl_conflictStep_shift eps heps acc c
      obtain ⟨s, hs⟩ := placeAll_append eps
        (acc ++ [List.foldl (fun x ch => conflictStep eps ch x) c acc]) rest
      refine ⟨d, hd, ?_⟩
      rw [placeAll, hs, hfold]
      simp
    · obtain ⟨d, hd, hmem⟩ := ih
        (acc ++ [List.foldl (fun x ch => conflictStep eps ch x) c0 acc]) c hcrest
      exact ⟨d, hd, by rw [placeAll]; exact hmem⟩

theorem mem_insertSorted_self (lt : Annotation → Annotation → Bool) (a : Annotation )
    (l : List Annotation ) : a ∈ insertSorted lt a l := by
  induction l with
  | nil => simp [insertSorted]
  | cons b r ih => by_cases h : lt b a = true <;> simp [insertSorted, h, ih]

theorem mem_insertSorted_of_mem (lt : Annotation → Annotation → Bool) (a x : Annotation )
    (l : List Annotation ) (hx : x ∈ l) : x ∈ insertSorted lt a l := by
  induction l with
  | nil => cases hx
  | cons b r ih =>
    rcases List.mem_cons.mp hx with h | h
    · subst h; by_cases hlt : lt x a = true <;> simp [insertSorted, hlt]
    · by_cases hlt : lt b a = true <;> simp [insertSorted, hlt, ih h, List.mem_cons, h]

theorem mem_sortStable (lt : Annotation → Annotation → Bool) (x : Annotation )
    (l : List Annotation ) (hx : x ∈ l) : x ∈ sortStable lt l := by
  induction l with
  | nil => cases hx
  | cons a r ih =>
    rcases List.mem_cons.mp hx with h | h
    · subst h; exact mem_insertSorted_self lt x (sortStable lt r)
    · exact mem_insertSorted_of_mem lt a x (sortStable lt r) (ih h)

theorem mem_assignSides_left (p : GraphParams) (a : Annotation ) (l : List Annotation )
    (hmem : a ∈ l) (hgl : goesLeft p a = true) :
    placeStep p a ∈ (assignSides p l).1 := by
  unfold assignSides
  exact List.mem_filterMap.mpr ⟨a, hmem, by simp [hgl]⟩

/-- A side-LEFT label whose y lies in the visible range is snapped to
the left offset with relpos `(1, 0.5)` and goes to the left partition. -/
theorem placeStep_left (p : GraphParams) (a : Annotation )
    (hx : a.x = 0 ∨ a.x = 1) (hy1 : p.minAge ≤ a.y) (hy2 : a.y ≤ p.ymax)
    (hw : 0 ≤ a.textW) (hoff : 0 ≤ p.leftOffset) :
    (placeStep p a).relpos = (1, 1/2)
    ∧ (placeStep p a).x = xminC - p.leftOffset - a.textW
    ∧ (placeStep p a).bbox.x1 = xminC - p.leftOffset
    ∧ (placeStep p a).y = a.y
    ∧ goesLeft p a = true := by
  have hfirst : ¬((xmaxC/2 ≤ a.x ∧ a.x < xmaxC)
      ∨ (xmaxC ≤ a.x ∧ a.x < xmaxC + p.rightOffset)) := by
    intro hcon
    rcases hx with h | h <;> rw [h] at hcon <;> norm_num [xmaxC] at hcon
  have hsec : (0 ≤ a.x ∧ a.x < xmaxC/2) ∨ (a.x ≤ xminC ∧ xminC - p.leftOffset < a.x) := by
    left
    rcases hx with h | h <;> rw [h] <;> norm_num [xmaxC]
  have hwidth : a.x + a.textW/2 - (a.x - a.textW/2) = a.textW := by ring
  have hplace : placeStep p a =
      { a with
        x := xminC - p.leftOffset - a.textW,
        bbox := { x0 := xminC - p.leftOffset - a.textW, y0 := a.y - a.textH/2,
                  x1 := xminC - p.leftOffset - a.textW + a.textW, y1 := a.y + a.textH/2 },
        relpos := (1, 1/2) } := by
    unfold placeStep setAnnotationBbox
    dsimp only
    rw [hwidth, if_pos ⟨hy1, hy2⟩, if_neg hfirst, if_pos hsec]
    rw [if_neg (by simp only [xminC, xmaxC]; intro hcon; linarith)]
  refine ⟨by rw [hplace], by rw [hplace], ?_, by rw [hplace], ?_⟩
  · rw [hplace]
    ring
  · unfold goesLeft
    rw [hplace]
    simp only [Bool.and_eq_true, decide_eq_true_eq]
    refine ⟨⟨hy1, hy2⟩, ?_⟩
    simp only [xminC, xmaxC]
    linarith

/-- C9 (counterexample): a label registered with `side=Side.LEFT` does
not always end with `relpos = (1, 0.5)` at the left offset.  With a
`min_age = 20` window, `add_era(..., side=Side.LEFT)` over rows 10..28
is visible (28 ≥ 20) but its label midpoint row 19 lies above the
window, so the resolver files it in the right partition with
`relpos = (0.5, 0)` and leaves its x at 1, inside the grid. -/
theorem c9_side_left_forcing_cex :
    isAnnotationVisible windowedParams windowedEraLabel = true
    ∧ windowedEraLabel.x = 1 ∧ windowedEraLabel.y = 19
    ∧ (resolveAnnotationConflicts windowedParams [ windowedEraLabel ]).map
        (fun b => (b.relpos, b.x)) = [((1/2, 0), 1)]
    ∧ ((1 : ℚ), (1 : ℚ)/2) ≠ ((1 : ℚ)/2, (0 : ℚ)) := by
  with_unfolding_all decide

/-- C9 (amended): for every registration with `side=LEFT` (initial label
x of 0, or 1 for an era) whose label y lies within the visible row range
`[min_age, ymax]`, the resolved output contains the label with
`relpos = (1, 0.5)`, its x at `xmin - left_offset - width` (so its box's
right edge sits at the left offset past the left grid edge), only ever
moved downward; a side-LEFT label whose y falls outside the window
(possible for era/span midpoints when `min_age > 0`) is instead filed in
the right partition with relpos `(0.5, 0)` or `(0.5, 1)` (see the
counterexample). -/
theorem c9_side_left_forcing (p : GraphParams) (l : List Annotation ) (a : Annotation )
    (heps : 0 ≤ p.epsilon) (hw : 0 ≤ a.textW) (hoff : 0 ≤ p.leftOffset)
    (hmem : a ∈ l) (hx : a.x = 0 ∨ a.x = 1) (hy1 : p.minAge ≤ a.y) (hy2 : a.y ≤ p.ymax) :
    ∃ b ∈ resolveAnnotationConflicts p l,
      b.relpos = (1, 1/2) ∧ b.x = xminC - p.leftOffset - a.textW
      ∧ b.bbox.x1 = xminC - p.leftOffset ∧ a.y ≤ b.y := by
  obtain ⟨hrel, hxv, hx1, hyv, hgl⟩ := placeStep_left p a hx hy1 hy2 hw hoff
  have hmemL : placeStep p a ∈ (assignSides p l).1 := mem_assignSides_left p a l hmem hgl
  have hmemS : placeStep p a ∈ sortStable ltLeft (assignSides p l).1 :=
    mem_sortStable ltLeft (placeStep p a) (assignSides p l).1 hmemL
  obtain ⟨d, hd, hmemP⟩ :=
    placeAll_mem p.epsilon heps (sortStable ltLeft (assignSides p l).1) [] (placeStep p a) hmemS
  refine ⟨shiftY d (placeStep p a), ?_, ?_, ?_, ?_, ?_⟩
  · show shiftY d (placeStep p a) ∈
      placeAll p.epsilon [] (sortStable ltLeft (assignSides p l).1)
        ++ placeAll p.epsilon [] (sortStable ltRight (assignSides p l).2)
    exact List.mem_append_left _ hmemP
  · simp [shiftY, hrel]
  · simp [shiftY, hxv]
  · simp [shiftY, hx1]
  · simp only [shiftY, hyv]
    linarith

/-- Witness for C9 (amended): a single `side=LEFT` event label at row 23
on the default graph. -/
theorem c9_side_left_forcing_witness :
    (0 : ℚ) ≤ defaultParams.epsilon ∧ (0 : ℚ) ≤ exampleLeftLabel.textW
    ∧ (0 : ℚ) ≤ defaultParams.leftOffset
    ∧ exampleLeftLabel ∈ [ exampleLeftLabel ]
    ∧ (exampleLeftLabel.x = 0 ∨ exampleLeftLabel.x = 1)
    ∧ defaultParams.minAge ≤ exampleLeftLabel.y
    ∧ exampleLeftLabel.y ≤ defaultParams.ymax
    ∧ ∃ b ∈ resolveAnnotationConflicts defaultParams [ exampleLeftLabel ],
        b.relpos = (1, 1/2)
        ∧ b.x = xminC - defaultParams.leftOffset - exampleLeftLabel.textW
        ∧ b.bbox.x1 = xminC - defaultParams.leftOffset
        ∧ exampleLeftLabel.y ≤ b.y :=
  ⟨by norm_num [defaultParams], by norm_num [exampleLeftLabel],
   by norm_num [defaultParams], by simp,
   Or.inl (by norm_num [exampleLeftLabel]),
   by norm_num [defaultParams, exampleLeftLabel],
   by norm_num [defaultParams, exampleLeftLabel],
   c9_side_left_forcing defaultParams [ exampleLeftLabel ] exampleLeftLabel
     (by norm_num [defaultParams]) (by norm_num [exampleLeftLabel])
     (by norm_num [defaultParams]) (by simp)
     (Or.inl (by norm_num [exampleLeftLabel]))
     (by norm_num [defaultParams, exampleLeftLabel])
     (by norm_num [defaultParams, exampleLeftLabel])⟩

end Lifegraph
